import Mathlib

/-!
Shallow embedding of the AgenKampus tool-retrieval agent: the RAG tool
retriever (src/rag/tool_retriever.py), the orchestrators' RAG narrowing and
error flow (src/agent/orchestrator.py, src/agent/orchestrator_remote_mcp.py),
MCP argument normalization (RemoteMCPOrchestrator._prepare_tool_arguments),
the calculator tool (src/mcp_utilitas/server.py) and the academic database
tools (src/mcp_akademik/database.py, src/mcp_akademik/server.py).

External effects (sentence-transformers embeddings, ChromaDB nearest-neighbor
search, the Python eval primitive, sqlite) are modelled as explicit inputs or
outcome values handed to the embedded functions; all repository-level control
flow is translated directly from the source. Real-number arithmetic of the
similarity computation is modelled exactly over the rationals.
-/

namespace AgenKampus

/-- Python values as they appear in tool-call payloads: None, strings,
numbers, dicts (insertion-ordered association lists), or some other scalar. -/
inductive PyVal where
  | pynone
  | pystr (s : String)
  | pynum (q : ℚ)
  | pydict (entries : List (String × PyVal))
  | pyother

/-- Python dict.get with its default of None: look a key up in an
insertion-ordered association list, returning None when absent. -/
def dictGet (entries : List (String × PyVal)) (k : String) : PyVal :=
  match entries.lookup k with
  | some v => v
  | none => PyVal.pynone

/-- RemoteMCPOrchestrator._prepare_tool_arguments
(src/agent/orchestrator_remote_mcp.py lines 214-260). The declared
properties mapping is represented by its key list, since the source only
tests key membership and emptiness on it. Branches appear in source order:
the no-schema early return, the dict case (with its empty-properties
sub-branch, the key filter and the first-required fallback), the string
case, the None case, and the scalar fallback. -/
def prepare_tool_arguments (arguments : PyVal) (required_props : List String)
    (properties : List String) : List (String × PyVal) :=
  if properties = [] ∧ required_props = [] then []
  else
    match arguments with
    | PyVal.pydict entries =>
        if properties = [] then
          match required_props with
          | first :: _ => [(first, dictGet entries first)]
          | [] => []
        else
          let filtered := entries.filter (fun kv => properties.contains kv.1)
          if filtered.isEmpty then
            match required_props with
            | first :: _ => [(first, dictGet entries first)]
            | [] => []
          else filtered
    | PyVal.pystr s =>
        match required_props with
        | first :: _ => [(first, PyVal.pystr s)]
        | [] => []
    | PyVal.pynone => []
    | other =>
        match required_props with
        | first :: _ => [(first, other)]
        | [] => []

/-- One tool metadata record as loaded from tool_descriptions.json. -/
structure ToolMeta where
  name : String
  description : String
  category : String
  keywords : List String
  examples : List String
  server : String
deriving DecidableEq, Repr

/-- ToolRetriever._create_searchable_text: the concatenated text blob that
is embedded for each catalog entry. -/
def create_searchable_text (t : ToolMeta) : String :=
  String.intercalate " "
    [ "Tool: " ++ t.name
    , "Description: " ++ t.description
    , "Category: " ++ t.category
    , "Keywords: " ++ String.intercalate ", " t.keywords
    , "Examples: " ++ String.intercalate " | " t.examples ]

/-- One persisted ChromaDB collection entry: id, stored document text and
embedding vector. -/
structure StoredEntry where
  id : String
  document : String
  embedding : List ℚ
deriving DecidableEq, Repr

/-- ToolRetriever._index_tools: embed the searchable text of every catalog
entry and store it keyed by the tool name. The sentence-transformers
encoder is the explicit function argument embed. -/
def index_tools (embed : String → List ℚ) (tools : List ToolMeta) :
    List StoredEntry :=
  tools.map (fun t =>
    { id := t.name
      document := create_searchable_text t
      embedding := embed (create_searchable_text t) })

/-- The indexing step of ToolRetriever.__init__ (lines 89-94): the catalog
is indexed exactly when the persisted collection is empty
(self.collection.count() == 0); otherwise the stored entries are reused. -/
def init_collection (embed : String → List ℚ) (tools : List ToolMeta)
    (stored : List StoredEntry) : List StoredEntry :=
  if stored.length = 0 then index_tools embed tools else stored

/-- similarity = 1 - distance ** 2 / 2 (tool_retriever.py line 213); the
square distance ** 2 is written d * d. -/
def similarityOfDistance (d : ℚ) : ℚ := 1 - d * d / 2

/-- One retrieval hit as returned by ToolRetriever.retrieve: the tool name,
the computed similarity score and the retrieval_rank annotation (idx + 1
over the raw neighbor index). -/
structure RetrievalHit where
  tool_name : String
  similarity_score : ℚ
  retrieval_rank : Nat
deriving DecidableEq, Repr

/-- The result-processing loop of ToolRetriever.retrieve (lines 204-229):
walk the raw neighbors with their running index idx, skip a neighbor when
its similarity falls below score_threshold, skip it when no catalog entry
carries its id, and otherwise emit a hit annotated with similarity and
retrieval_rank = idx + 1. -/
def retrieveAux (tools : List ToolMeta) (score_threshold : ℚ) :
    Nat → List (String × ℚ) → List RetrievalHit
  | _, [] => []
  | idx, nb :: rest =>
    if similarityOfDistance nb.2 < score_threshold then
      retrieveAux tools score_threshold (idx + 1) rest
    else
      match tools.find? (fun tm => tm.name == nb.1) with
      | some _ =>
          { tool_name := nb.1, similarity_score := similarityOfDistance nb.2,
            retrieval_rank := idx + 1 }
            :: retrieveAux tools score_threshold (idx + 1) rest
      | none => retrieveAux tools score_threshold (idx + 1) rest

/-- ToolRetriever.retrieve, as a function of the catalog and of the raw
neighbor list (ids paired with L2 distances) that the vector store returns
for the query embedding. -/
def retrieveHits (tools : List ToolMeta) (neighbors : List (String × ℚ))
    (score_threshold : ℚ) : List RetrievalHit :=
  retrieveAux tools score_threshold 0 neighbors

/-- Tool narrowing in RemoteMCPOrchestrator.query (lines 315-331): keep the
registered tools named by the retrieval results, in retrieval order, and
fall back to the full registered table when that selection is empty. -/
def select_remote_tools (allToolNames retrievedNames : List String) :
    List String :=
  let selected := retrievedNames.filter (fun n => allToolNames.contains n)
  if selected = [] then allToolNames else selected

/-- Tool narrowing in AgenKampusOrchestrator.query (orchestrator.py lines
228-233): keep the loaded tools named by the retrieval results, in
retrieval order, with no fallback to the full table. -/
def select_local_tools (allToolNames retrievedNames : List String) :
    List String :=
  retrievedNames.filter (fun n => allToolNames.contains n)

/-- Outcome of the self.retriever.retrieve call inside query: either the
retrieved tool names, or an exception from the embedding backend or vector
store. -/
inductive RetrievalOutcome where
  | ok (names : List String)
  | unavailable (msg : String)
deriving DecidableEq, Repr

/-- Outcome of agent_executor.ainvoke on the selected tools: a final
answer, or a raised exception. -/
inductive AgentOutcome where
  | finished (answer : String)
  | raised (msg : String)
deriving DecidableEq, Repr

/-- The structured result dict of RemoteMCPOrchestrator.query: either
success=True with an answer or success=False with an error message. -/
inductive QueryResult where
  | answered (answer : String)
  | failed (error : String)
deriving DecidableEq, Repr

/-- The try/except around agent execution (lines 337-351): a finished run
yields success=True, a raised exception is caught and yields
success=False. -/
def run_agent_phase (o : AgentOutcome) : QueryResult :=
  match o with
  | AgentOutcome.finished ans => QueryResult.answered ans
  | AgentOutcome.raised msg => QueryResult.failed msg

/-- Control flow of RemoteMCPOrchestrator.query (lines 309-351): with
use_rag the retrieval call runs outside any try/except, so a retrieval
failure propagates (Except.error); on success the narrowed tool list is
handed to the agent phase, whose own exceptions are caught. -/
def query_remote (allToolNames : List String) (use_rag : Bool)
    (retrieval : RetrievalOutcome) (agent : List String → AgentOutcome) :
    Except String QueryResult :=
  if use_rag then
    match retrieval with
    | RetrievalOutcome.unavailable msg => Except.error msg
    | RetrievalOutcome.ok names =>
        Except.ok (run_agent_phase (agent (select_remote_tools allToolNames names)))
  else Except.ok (run_agent_phase (agent allToolNames))

/-- Outcome of evaluating the calculator expression with Python eval under
the restricted namespace (mcp_utilitas/server.py line 82): a value already
rendered through str, or one of the exception classes the handlers
distinguish. -/
inductive EvalOutcome where
  | ok (rendered : String)
  | zeroDivision
  | syntaxError (msg : String)
  | nameError (msg : String)
  | typeError (msg : String)
  | otherError (msg : String)
deriving DecidableEq, Repr

/-- Whether the evaluation outcome is an exception rather than a value. -/
def EvalOutcome.isFailure : EvalOutcome → Bool
  | EvalOutcome.ok _ => false
  | _ => true

/-- kalkulator_sederhana (mcp_utilitas/server.py lines 41-91): return
str(result) on success; ZeroDivisionError maps to a fixed message;
SyntaxError, NameError and TypeError map to an invalid-expression message;
any other exception maps to a generic error message. -/
def kalkulator_sederhana (o : EvalOutcome) : String :=
  match o with
  | EvalOutcome.ok rendered => rendered
  | EvalOutcome.zeroDivision => "Error: Division by zero"
  | EvalOutcome.syntaxError m => "Error: Invalid expression - " ++ m
  | EvalOutcome.nameError m => "Error: Invalid expression - " ++ m
  | EvalOutcome.typeError m => "Error: Invalid expression - " ++ m
  | EvalOutcome.otherError m => "Error: " ++ m

/-- Outcome of the sqlite operations inside DatabaseConnection.execute_query
(mcp_akademik/database.py lines 69-90): the fetched rows, or a raised
sqlite3.Error. -/
inductive SqliteOutcome where
  | ok (rows : List (List String))
  | err (msg : String)
deriving DecidableEq, Repr

/-- DatabaseConnection.execute_query with fetch_one=True: return the first
fetched row (cursor.fetchone), or None; a sqlite3.Error is caught inside
and also returns None instead of propagating. -/
def execute_query_fetchone (o : SqliteOutcome) : Option (List String) :=
  match o with
  | SqliteOutcome.ok rows => rows.head?
  | SqliteOutcome.err _ => Option.none

/-- The message returned when no row matches the student name. -/
def missing_student_msg (nama : String) : String :=
  "Mahasiswa \x27" ++ nama ++ "\x27 tidak ditemukan dalam database"

/-- Body of get_dosen_pembimbing (mcp_akademik/server.py lines 60-79) as a
function of what the db.execute_query call produced: a raised exception
feeds the except branch, a truthy row feeds the advisor message, and a
falsy result (None or an empty row) feeds the not-found message. -/
def get_dosen_pembimbing_body (nama : String)
    (call : Except String (Option (List String))) : String :=
  match call with
  | Except.error e => "Error saat mencari dosen pembimbing: " ++ e
  | Except.ok (Option.some (dosen :: _)) =>
      "Dosen pembimbing " ++ nama ++ ": " ++ dosen
  | Except.ok (Option.some []) => missing_student_msg nama
  | Except.ok Option.none => missing_student_msg nama

/-- get_dosen_pembimbing composed with execute_query: because execute_query
catches sqlite3.Error internally and returns None, the body always receives
an ordinary return value (Except.ok), never an exception. -/
def get_dosen_pembimbing (nama : String) (o : SqliteOutcome) : String :=
  get_dosen_pembimbing_body nama (Except.ok (execute_query_fetchone o))

/-- A catalog entry with a given name and empty descriptive fields, used to
build concrete catalogs in counterexamples and witnesses. -/
def namedTool (n : String) : ToolMeta :=
  { name := n, description := "", category := "", keywords := [], examples := [],
    server := "" }

/-- Every hit produced by the retrieval loop comes from some raw neighbor:
its similarity is computed from that neighbor's distance by
similarityOfDistance, its retrieval_rank is the running index of that
neighbor plus one, the threshold test passed, and some catalog entry
carries its name. -/
lemma retrieveAux_mem {tools : List ToolMeta} {t : ℚ} :
    ∀ {idx : Nat} {nbs : List (String × ℚ)} {h : RetrievalHit},
      h ∈ retrieveAux tools t idx nbs →
      ∃ j d, nbs[j]? = some (h.tool_name, d) ∧
        h.similarity_score = similarityOfDistance d ∧
        h.retrieval_rank = idx + j + 1 ∧
        ¬ similarityOfDistance d < t ∧
        ∃ tm ∈ tools, tm.name = h.tool_name := by
  intro idx nbs
  induction nbs generalizing idx with
  | nil => intro h hm; simp [retrieveAux] at hm
  | cons nb rest ih =>
    intro h hm
    simp only [retrieveAux] at hm
    by_cases hlt : similarityOfDistance nb.2 < t
    · rw [if_pos hlt] at hm
      obtain ⟨j, d, h1, h2, h3, h4, h5⟩ := ih hm
      exact ⟨j + 1, d, by simpa using h1, h2, by omega, h4, h5⟩
    · rw [if_neg hlt] at hm
      cases hfind : tools.find? (fun tm => tm.name == nb.1) with
      | none =>
        rw [hfind] at hm
        obtain ⟨j, d, h1, h2, h3, h4, h5⟩ := ih hm
        exact ⟨j + 1, d, by simpa using h1, h2, by omega, h4, h5⟩
      | some tm =>
        rw [hfind] at hm
        rcases List.mem_cons.mp hm with rfl | hm'
        · refine ⟨0, nb.2, by simp, rfl, rfl, hlt, tm,
            List.mem_of_find?_eq_some hfind, ?_⟩
          simpa using List.find?_some hfind
        · obtain ⟨j, d, h1, h2, h3, h4, h5⟩ := ih hm'
          exact ⟨j + 1, d, by simpa using h1, h2, by omega, h4, h5⟩

/-- Raising the score threshold can only drop hits: the loop's output at a
higher threshold is a sublist of its output at a lower one. -/
lemma retrieveAux_sublist {tools : List ToolMeta} {t₁ t₂ : ℚ} (hle : t₁ ≤ t₂) :
    ∀ (idx : Nat) (nbs : List (String × ℚ)),
      (retrieveAux tools t₂ idx nbs).Sublist (retrieveAux tools t₁ idx nbs) := by
  intro idx nbs
  induction nbs generalizing idx with
  | nil => simp [retrieveAux]
  | cons nb rest ih =>
    simp only [retrieveAux]
    by_cases h2 : similarityOfDistance nb.2 < t₂
    · rw [if_pos h2]
      by_cases h1 : similarityOfDistance nb.2 < t₁
      · rw [if_pos h1]; exact ih _
      · rw [if_neg h1]
        cases hfind : tools.find? (fun tm => tm.name == nb.1) with
        | none => exact ih _
        | some tm => exact (ih _).cons _
    · have h1 : ¬ similarityOfDistance nb.2 < t₁ :=
        fun hl => h2 (lt_of_lt_of_le hl hle)
      rw [if_neg h2, if_neg h1]
      cases hfind : tools.find? (fun tm => tm.name == nb.1) with
      | none => exact ih _
      | some tm => exact (ih _).cons₂ _

/-- When no neighbor is dropped (every one passes the threshold and is
found in the catalog), the loop keeps them all and ranks are consecutive
from the starting index. -/
lemma retrieveAux_rank_consecutive {tools : List ToolMeta} {t : ℚ} :
    ∀ {idx : Nat} {nbs : List (String × ℚ)},
      (∀ nb ∈ nbs, ¬ similarityOfDistance nb.2 < t ∧
        (tools.find? (fun tm => tm.name == nb.1)).isSome = true) →
      ∀ i h, (retrieveAux tools t idx nbs)[i]? = some h →
        h.retrieval_rank = idx + i + 1 := by
  intro idx nbs
  induction nbs generalizing idx with
  | nil => intro _ i h hget; simp [retrieveAux] at hget
  | cons nb rest ih =>
    intro hall i h hget
    obtain ⟨hnb, hfindsome⟩ := hall nb (by simp)
    obtain ⟨tm, hfind⟩ := Option.isSome_iff_exists.mp hfindsome
    simp only [retrieveAux, if_neg hnb, hfind] at hget
    cases i with
    | zero =>
      simp only [List.getElem?_cons_zero, Option.some.injEq] at hget
      rw [← hget]
    | succ i =>
      simp only [List.getElem?_cons_succ] at hget
      have := ih (fun nb' hm => hall nb' (List.mem_cons_of_mem _ hm)) i h hget
      omega

/-- C2: every hit returned by retrieve carries as similarity_score exactly
1 - d * d / 2 for the distance d of the raw neighbor it came from; this
formula maps d = 0 to 1 and d = 2 to -1; and when the vector store reports
an entry at distance 0 first (the identical-embedding case), that entry is
in the catalog and the threshold is at most 1 (the default is 0.0), retrieve
returns it first, with similarity score 1 and rank 1. -/
theorem retrieve_similarity_formula :
    (∀ (tools : List ToolMeta) (nbs : List (String × ℚ)) (t : ℚ)
        (h : RetrievalHit), h ∈ retrieveHits tools nbs t →
        ∃ d, (h.tool_name, d) ∈ nbs ∧ h.similarity_score = similarityOfDistance d)
    ∧ similarityOfDistance 0 = 1 ∧ similarityOfDistance 2 = -1
    ∧ ∀ (tools : List ToolMeta) (rest : List (String × ℚ)) (t : ℚ)
        (name : String), (∃ tm ∈ tools, tm.name = name) → t ≤ 1 →
        (retrieveHits tools ((name, 0) :: rest) t).head? =
          some { tool_name := name, similarity_score := 1, retrieval_rank := 1 } := by
  refine ⟨?_, by norm_num [similarityOfDistance], by norm_num [similarityOfDistance], ?_⟩
  · intro tools nbs t h hm
    obtain ⟨j, d, h1, h2, _, _, _⟩ := retrieveAux_mem hm
    exact ⟨d, List.getElem?_mem h1, h2⟩
  · intro tools rest t name hex hle
    have hsim : similarityOfDistance 0 = 1 := by norm_num [similarityOfDistance]
    have hnlt : ¬ similarityOfDistance ((name, (0 : ℚ)).2) < t := by
      simpa [hsim] using not_lt.mpr hle
    have hsome : (tools.find? (fun tm => tm.name == name)).isSome = true := by
      rw [List.find?_isSome]
      obtain ⟨tm, htm, hname⟩ := hex
      exact ⟨tm, htm, by simpa using hname⟩
    obtain ⟨tm, hfind⟩ := Option.isSome_iff_exists.mp hsome
    simp only [retrieveHits, retrieveAux, if_neg hnlt, hfind, List.head?_cons,
      Option.some.injEq]
    simpa using hsim

/-- Witness for C2: the rank-1 clause applied to a one-tool catalog whose
entry comes back at distance 0. -/
theorem retrieve_similarity_formula_witness :
    (retrieveHits [namedTool "get_waktu_saat_ini"]
        [("get_waktu_saat_ini", 0)] 0).head? =
      some { tool_name := "get_waktu_saat_ini", similarity_score := 1,
             retrieval_rank := 1 } :=
  retrieve_similarity_formula.2.2.2 [namedTool "get_waktu_saat_ini"] [] 0
    "get_waktu_saat_ini" ⟨namedTool "get_waktu_saat_ini", by simp, rfl⟩
    (by norm_num)

/-- C4: raising the score threshold never adds a hit: with the same catalog
and the same raw neighbors, the hits at a higher threshold form a sublist
(hence a subset) of the hits at a lower threshold, and every returned hit
passes the threshold it was filtered against. -/
theorem retrieve_threshold_monotone :
    ∀ (tools : List ToolMeta) (nbs : List (String × ℚ)) (t₁ t₂ : ℚ),
      t₁ ≤ t₂ →
      (retrieveHits tools nbs t₂).Sublist (retrieveHits tools nbs t₁)
      ∧ (∀ h ∈ retrieveHits tools nbs t₂, h ∈ retrieveHits tools nbs t₁)
      ∧ ∀ h ∈ retrieveHits tools nbs t₂, ¬ h.similarity_score < t₂ := by
  intro tools nbs t₁ t₂ hle
  refine ⟨retrieveAux_sublist hle 0 nbs, ?_, ?_⟩
  · exact fun h hm => (retrieveAux_sublist hle 0 nbs).subset hm
  · intro h hm
    obtain ⟨j, d, _, h2, _, h4, _⟩ := retrieveAux_mem hm
    rw [h2]; exact h4

/-- Witness for C4: the threshold 99/100 output on a distance-1 neighbor is
a sublist of the threshold-0 output. -/
theorem retrieve_threshold_monotone_witness :
    (retrieveHits [namedTool "a"] [("a", 1)] (99 / 100)).Sublist
      (retrieveHits [namedTool "a"] [("a", 1)] 0) :=
  (retrieve_threshold_monotone [namedTool "a"] [("a", 1)] 0 (99 / 100)
    (by norm_num)).1

/-- C5: every hit returned by retrieve names a tool of the loaded catalog;
a stale index id with no catalog entry is silently skipped (the embedded
retrieve is a total function, so no error is raised), as the concrete
stale-only run returning the empty list shows. -/
theorem retrieve_hits_exist_in_catalog :
    (∀ (tools : List ToolMeta) (nbs : List (String × ℚ)) (t : ℚ)
        (h : RetrievalHit), h ∈ retrieveHits tools nbs t →
        h.tool_name ∈ tools.map ToolMeta.name)
    ∧ retrieveHits [namedTool "get_dosen_pembimbing"] [("stale_id", 0)] 0 = [] := by
  constructor
  · intro tools nbs t h hm
    obtain ⟨_, _, _, _, _, _, tm, htm, hname⟩ := retrieveAux_mem hm
    exact List.mem_map.mpr ⟨tm, htm, hname⟩
  · norm_num [retrieveHits, retrieveAux, similarityOfDistance, namedTool]
    simp

/-- Witness for C5: the catalog-membership clause applied to a hit of a
concrete retrieval. -/
theorem retrieve_hits_exist_in_catalog_witness :
    ("get_waktu_saat_ini" : String) ∈
      [namedTool "get_waktu_saat_ini"].map ToolMeta.name :=
  retrieve_hits_exist_in_catalog.1 [namedTool "get_waktu_saat_ini"]
    [("get_waktu_saat_ini", 0)] 0
    { tool_name := "get_waktu_saat_ini", similarity_score := 1,
      retrieval_rank := 1 }
    (by norm_num [retrieveHits, retrieveAux, similarityOfDistance, namedTool])

/-- Counterexample for C8: with a stale first neighbor, the first (and
only) hit of the result carries retrieval_rank 2, not its 1-based result
position 1 — ranks are idx + 1 over the raw neighbor index, so dropped
neighbors leave gaps, refuting the claim that ranks are consecutive in
result order. -/
theorem retrieval_rank_counterexample :
    (retrieveHits [namedTool "get_dosen_pembimbing"]
        [("stale_tool", 0), ("get_dosen_pembimbing", 0)] 0)[0]?
      = some { tool_name := "get_dosen_pembimbing", similarity_score := 1,
               retrieval_rank := 2 }
    ∧ ¬ (∀ (tools : List ToolMeta) (nbs : List (String × ℚ)) (t : ℚ)
          (i : Nat) (h : RetrievalHit),
          (retrieveHits tools nbs t)[i]? = some h →
          h.retrieval_rank = i + 1) := by
  have heval : retrieveHits [namedTool "get_dosen_pembimbing"]
      [("stale_tool", 0), ("get_dosen_pembimbing", 0)] 0
      = [{ tool_name := "get_dosen_pembimbing", similarity_score := 1,
           retrieval_rank := 2 }] := by
    norm_num [retrieveHits, retrieveAux, similarityOfDistance, namedTool]
    simp
  constructor
  · rw [heval]; rfl
  · intro hall
    have h2 := hall [namedTool "get_dosen_pembimbing"]
      [("stale_tool", 0), ("get_dosen_pembimbing", 0)] 0 0
      { tool_name := "get_dosen_pembimbing", similarity_score := 1,
        retrieval_rank := 2 }
      (by rw [heval]; rfl)
    simp at h2

/-- C8 as amended: each hit's retrieval_rank is one plus the position of
its originating neighbor in the raw neighbor list (so gaps appear exactly
where neighbors were dropped); only when no raw neighbor is dropped (every
one passes the threshold and is found in the catalog) are the ranks the
consecutive 1-based result positions. -/
theorem retrieval_rank_amended :
    (∀ (tools : List ToolMeta) (nbs : List (String × ℚ)) (t : ℚ)
        (h : RetrievalHit), h ∈ retrieveHits tools nbs t →
        ∃ j d, nbs[j]? = some (h.tool_name, d) ∧ h.retrieval_rank = j + 1)
    ∧ ∀ (tools : List ToolMeta) (nbs : List (String × ℚ)) (t : ℚ),
        (∀ nb ∈ nbs, ¬ similarityOfDistance nb.2 < t ∧
          (tools.find? (fun tm => tm.name == nb.1)).isSome = true) →
        ∀ i h, (retrieveHits tools nbs t)[i]? = some h →
          h.retrieval_rank = i + 1 := by
  constructor
  · intro tools nbs t h hm
    obtain ⟨j, d, h1, _, h3, _, _⟩ := retrieveAux_mem hm
    exact ⟨j, d, h1, by omega⟩
  · intro tools nbs t hall i h hget
    have := retrieveAux_rank_consecutive hall i h hget
    omega

/-- Witness for C8 as amended: on a run where nothing is dropped, the first
hit carries rank 1. -/
theorem retrieval_rank_amended_witness :
    ({ tool_name := "a", similarity_score := 1, retrieval_rank := 1 } :
      RetrievalHit).retrieval_rank = 0 + 1 :=
  retrieval_rank_amended.2 [namedTool "a"] [("a", 0)] 0
    (by
      intro nb hm
      simp only [List.mem_singleton] at hm
      subst hm
      refine ⟨by norm_num [similarityOfDistance], by simp [namedTool]⟩)
    0 _ (by norm_num [retrieveHits, retrieveAux, similarityOfDistance, namedTool])

/-- C1: argument normalization follows the four-step policy. (1) With no
declared properties and no required parameters the result is empty whatever
was passed. (2) For a mapping, the key-intersection with the declared
properties is returned when non-empty; when it is empty and a required
parameter exists, the first required name is bound to the value looked up
under that name (None when absent). (3) A bare string with a required
parameter is bound to the first required name. (4) An absent (None) payload
yields the empty mapping. The three concrete spec examples follow. -/
theorem prepare_tool_arguments_policy :
    (∀ arguments, prepare_tool_arguments arguments [] [] = [])
    ∧ (∀ (entries : List (String × PyVal)) (req props : List String),
        entries.filter (fun kv => props.contains kv.1) ≠ [] →
        prepare_tool_arguments (PyVal.pydict entries) req props
          = entries.filter (fun kv => props.contains kv.1))
    ∧ (∀ (entries : List (String × PyVal)) (first : String)
        (rest props : List String),
        entries.filter (fun kv => props.contains kv.1) = [] →
        prepare_tool_arguments (PyVal.pydict entries) (first :: rest) props
          = [(first, dictGet entries first)])
    ∧ (∀ (s first : String) (rest props : List String),
        prepare_tool_arguments (PyVal.pystr s) (first :: rest) props
          = [(first, PyVal.pystr s)])
    ∧ (∀ (req props : List String),
        prepare_tool_arguments PyVal.pynone req props = [])
    ∧ prepare_tool_arguments (PyVal.pydict []) [] [] = []
    ∧ prepare_tool_arguments (PyVal.pystr "Agus Setiawan") ["nama_mahasiswa"]
        ["nama_mahasiswa"]
        = [("nama_mahasiswa", PyVal.pystr "Agus Setiawan")]
    ∧ prepare_tool_arguments
        (PyVal.pydict [("x", PyVal.pynum 1), ("y", PyVal.pynum 2)]) ["x"] ["x"]
        = [("x", PyVal.pynum 1)] := by
  refine ⟨?_, ?_, ?_, ?_, ?_, rfl, rfl, rfl⟩
  · intro arguments
    simp [prepare_tool_arguments]
  · intro entries req props hf
    have hprops : props ≠ [] := by
      rintro rfl
      exact hf (by simp)
    have hne : ¬ (props = [] ∧ req = []) := fun hc => hprops hc.1
    have hemp : ¬ ((entries.filter
        (fun kv => props.contains kv.1)).isEmpty = true) := by
      simp only [List.isEmpty_iff]
      exact hf
    simp only [prepare_tool_arguments, if_neg hne, if_neg hprops, if_neg hemp]
  · intro entries first rest props hf
    have hne : ¬ (props = [] ∧ first :: rest = []) := by simp
    by_cases hp : props = []
    · simp only [prepare_tool_arguments, if_neg hne, if_pos hp]
    · have hemp : (entries.filter
          (fun kv => props.contains kv.1)).isEmpty = true := by
        simp only [List.isEmpty_iff]
        exact hf
      simp only [prepare_tool_arguments, if_neg hne, if_neg hp, if_pos hemp]
  · intro s first rest props
    have hne : ¬ (props = [] ∧ first :: rest = []) := by simp
    simp only [prepare_tool_arguments, if_neg hne]
  · intro req props
    by_cases h : props = [] ∧ req = []
    · simp only [prepare_tool_arguments, if_pos h]
    · simp only [prepare_tool_arguments, if_neg h]

/-- Witness for C1: the mapping clauses applied to concrete payloads, one
with a non-empty key intersection and one with an empty intersection and a
missing required key. -/
theorem prepare_tool_arguments_policy_witness :
    prepare_tool_arguments
        (PyVal.pydict [("x", PyVal.pynum 1), ("y", PyVal.pynum 2)]) ["x"]
        ["x", "w"]
      = [("x", PyVal.pynum 1)]
    ∧ prepare_tool_arguments (PyVal.pydict [("z", PyVal.pynum 3)]) ["x"] ["x"]
      = [("x", PyVal.pynone)] :=
  ⟨prepare_tool_arguments_policy.2.1 [("x", PyVal.pynum 1), ("y", PyVal.pynum 2)]
      ["x"] ["x", "w"] (by simp),
    prepare_tool_arguments_policy.2.2.1 [("z", PyVal.pynum 3)] "x" [] ["x"]
      (by simp)⟩

/-- C6: the constructor-time index build is idempotent: re-running
init_collection on its own output changes nothing; a non-empty persisted
collection is left exactly as it was (same entries, hence same count and
vectors); and only an empty collection triggers indexing. -/
theorem index_build_idempotent :
    ∀ (embed : String → List ℚ) (tools : List ToolMeta)
      (stored : List StoredEntry),
      init_collection embed tools (init_collection embed tools stored)
        = init_collection embed tools stored
      ∧ (stored ≠ [] → init_collection embed tools stored = stored)
      ∧ (stored.length = 0 →
          init_collection embed tools stored = index_tools embed tools) := by
  intro embed tools stored
  refine ⟨?_, ?_, ?_⟩
  · by_cases h : stored.length = 0
    · simp only [init_collection, if_pos h]
      by_cases h2 : (index_tools embed tools).length = 0
      · rw [if_pos h2]
      · rw [if_neg h2]
    · simp only [init_collection, if_neg h]
  · intro hne
    have h : ¬ stored.length = 0 := by
      simpa [List.length_eq_zero] using hne
    simp only [init_collection, if_neg h]
  · intro h
    simp only [init_collection, if_pos h]

/-- Witness for C6: a second build pass over a populated one-entry store
returns it unchanged. -/
theorem index_build_idempotent_witness :
    init_collection (fun _ => [0]) [namedTool "get_waktu_saat_ini"]
        [{ id := "get_waktu_saat_ini", document := "doc", embedding := [0] }]
      = [{ id := "get_waktu_saat_ini", document := "doc", embedding := [0] }] :=
  (index_build_idempotent (fun _ => [0]) [namedTool "get_waktu_saat_ini"]
      [{ id := "get_waktu_saat_ini", document := "doc", embedding := [0] }]).2.1
    (by simp)

/-- Counterexample for C3: when the retrieved names have no overlap with
the registered tool table, RemoteMCPOrchestrator.query falls back to the
full table, handing the decision model a tool that the retriever did not
return — so the narrowing invariant fails as universally stated. -/
theorem rag_narrowing_counterexample :
    select_remote_tools ["get_waktu_saat_ini"] ["get_dosen_pembimbing"]
      = ["get_waktu_saat_ini"]
    ∧ ¬ (("get_waktu_saat_ini" : String) ∈ ["get_dosen_pembimbing"]) := by
  decide

/-- C3 as amended: in the remote orchestrator the narrowing invariant holds
whenever at least one retrieved name is registered (the selected list is
then exactly the registered retrieved names); only an empty selection
triggers the documented full-table fallback. The local orchestrator
(orchestrator.py) enforces the invariant unconditionally. -/
theorem rag_narrowing_amended :
    (∀ (allNames retrieved : List String),
        retrieved.filter (fun n => allNames.contains n) ≠ [] →
        ∀ t ∈ select_remote_tools allNames retrieved, t ∈ retrieved)
    ∧ ∀ (allNames retrieved : List String),
        ∀ t ∈ select_local_tools allNames retrieved, t ∈ retrieved := by
  constructor
  · intro allNames retrieved hne t ht
    simp only [select_remote_tools] at ht
    rw [if_neg hne] at ht
    exact (List.mem_filter.mp ht).1
  · intro allNames retrieved t ht
    exact (List.mem_filter.mp ht).1

/-- Witness for C3 as amended: with an overlapping retrieval, a selected
tool is among the retrieved names. -/
theorem rag_narrowing_amended_witness :
    ("get_waktu_saat_ini" : String) ∈ ["get_waktu_saat_ini"] :=
  rag_narrowing_amended.1 ["get_waktu_saat_ini"] ["get_waktu_saat_ini"]
    (by decide) "get_waktu_saat_ini" (by decide)

/-- Counterexample for C7: when the retrieval call raises, query propagates
the exception (Except.error) instead of producing a structured result —
there is no local recovery that disables RAG narrowing, because the
retrieve call sits outside the try/except that guards agent execution. -/
theorem retrieval_failure_counterexample :
    query_remote ["get_waktu_saat_ini"] true
        (RetrievalOutcome.unavailable "embedding backend unreachable")
        (fun _ => AgentOutcome.finished "ok")
      = Except.error "embedding backend unreachable"
    ∧ (Except.error "embedding backend unreachable" :
        Except String QueryResult) ≠ Except.ok (QueryResult.answered "ok") := by
  exact ⟨rfl, by simp⟩

/-- C7 as amended: a retrieval failure propagates out of query for every
catalog and agent; the full-table fallback happens only when retrieval
succeeds but returns no registered name; and agent-execution exceptions, by
contrast, are caught and returned as structured success=false results. -/
theorem retrieval_failure_amended :
    (∀ (allNames : List String) (msg : String)
        (agent : List String → AgentOutcome),
        query_remote allNames true (RetrievalOutcome.unavailable msg) agent
          = Except.error msg)
    ∧ (∀ (allNames names : List String) (agent : List String → AgentOutcome),
        names.filter (fun n => allNames.contains n) = [] →
        query_remote allNames true (RetrievalOutcome.ok names) agent
          = Except.ok (run_agent_phase (agent allNames)))
    ∧ ∀ (allNames names : List String) (m : String),
        query_remote allNames true (RetrievalOutcome.ok names)
            (fun _ => AgentOutcome.raised m)
          = Except.ok (QueryResult.failed m) := by
  refine ⟨fun _ _ _ => rfl, ?_, fun _ _ _ => rfl⟩
  intro allNames names agent hempty
  simp only [query_remote, select_remote_tools, if_pos hempty, if_true]

/-- Witness for C7 as amended: a successful retrieval with no registered
overlap falls back to the full table and yields a structured answer. -/
theorem retrieval_failure_amended_witness :
    query_remote ["get_waktu_saat_ini"] true
        (RetrievalOutcome.ok ["unknown_tool"])
        (fun _ => AgentOutcome.finished "ok")
      = Except.ok (QueryResult.answered "ok") :=
  retrieval_failure_amended.2.1 ["get_waktu_saat_ini"] ["unknown_tool"]
    (fun _ => AgentOutcome.finished "ok") (by decide)

/-- C9: the calculator is total over every evaluation outcome: a value is
rendered back, ZeroDivisionError maps to exactly "Error: Division by zero",
and every other exception (syntax, name, type or any other) maps to a
string beginning with "Error:". -/
theorem kalkulator_total_error_strings :
    ∀ o : EvalOutcome,
      (o = EvalOutcome.zeroDivision →
        kalkulator_sederhana o = "Error: Division by zero")
      ∧ (o.isFailure = true →
          ∃ r, kalkulator_sederhana o = "Error:" ++ r)
      ∧ ∀ s, o = EvalOutcome.ok s → kalkulator_sederhana o = s := by
  intro o
  refine ⟨?_, ?_, ?_⟩
  · intro h; subst h; rfl
  · intro hfail
    cases o with
    | ok s => simp [EvalOutcome.isFailure] at hfail
    | zeroDivision => exact ⟨" Division by zero", rfl⟩
    | syntaxError m =>
        refine ⟨" Invalid expression - " ++ m, ?_⟩
        show "Error: Invalid expression - " ++ m = _
        rw [show ("Error: Invalid expression - " : String)
            = "Error:" ++ " Invalid expression - " from rfl,
          String.append_assoc]
    | nameError m =>
        refine ⟨" Invalid expression - " ++ m, ?_⟩
        show "Error: Invalid expression - " ++ m = _
        rw [show ("Error: Invalid expression - " : String)
            = "Error:" ++ " Invalid expression - " from rfl,
          String.append_assoc]
    | typeError m =>
        refine ⟨" Invalid expression - " ++ m, ?_⟩
        show "Error: Invalid expression - " ++ m = _
        rw [show ("Error: Invalid expression - " : String)
            = "Error:" ++ " Invalid expression - " from rfl,
          String.append_assoc]
    | otherError m =>
        refine ⟨" " ++ m, ?_⟩
        show "Error: " ++ m = _
        rw [show ("Error: " : String) = "Error:" ++ " " from rfl,
          String.append_assoc]
  · intro s h; subst h; rfl

/-- Witness for C9: the division-by-zero clause and the error-prefix clause
at concrete outcomes. -/
theorem kalkulator_total_error_strings_witness :
    kalkulator_sederhana EvalOutcome.zeroDivision = "Error: Division by zero"
    ∧ ∃ r, kalkulator_sederhana (EvalOutcome.syntaxError "invalid syntax")
        = "Error:" ++ r :=
  ⟨(kalkulator_total_error_strings EvalOutcome.zeroDivision).1 rfl,
    (kalkulator_total_error_strings (EvalOutcome.syntaxError "invalid syntax")).2.1
      rfl⟩

/-- C10: a sqlite error inside execute_query is swallowed into None, so
get_dosen_pembimbing answers a database failure with the very same
student-not-found message it uses for a genuinely missing student; no
reachable outcome begins with the letter of the "Error saat mencari"
branch, which only an exception from execute_query — impossible for
database errors — could produce. -/
theorem db_error_masquerades_as_missing :
    ∀ (nama msg : String),
      execute_query_fetchone (SqliteOutcome.err msg) = Option.none
      ∧ get_dosen_pembimbing nama (SqliteOutcome.err msg)
          = missing_student_msg nama
      ∧ get_dosen_pembimbing nama (SqliteOutcome.err msg)
          = get_dosen_pembimbing nama (SqliteOutcome.ok [])
      ∧ (∀ o : SqliteOutcome,
          (get_dosen_pembimbing nama o).data.head? ≠ some 'E')
      ∧ ∀ e : String,
          (get_dosen_pembimbing_body nama (Except.error e)).data.head?
            = some 'E' := by
  intro nama msg
  refine ⟨rfl, rfl, rfl, ?_, fun e => rfl⟩
  intro o
  cases o with
  | err m =>
      intro h
      exact absurd h (show ¬ ((some 'M' : Option Char) = some 'E') by decide)
  | ok rows =>
      rcases rows with _ | ⟨_ | ⟨d, row⟩, rs⟩
      · intro h
        exact absurd h (show ¬ ((some 'M' : Option Char) = some 'E') by decide)
      · intro h
        exact absurd h (show ¬ ((some 'M' : Option Char) = some 'E') by decide)
      · intro h
        exact absurd h (show ¬ ((some 'D' : Option Char) = some 'E') by decide)

/-- Witness for C10: the database-failure result at a concrete student and
error equals the not-found message. -/
theorem db_error_masquerades_as_missing_witness :
    get_dosen_pembimbing "Agus Setiawan" (SqliteOutcome.err "database is locked")
      = missing_student_msg "Agus Setiawan" :=
  (db_error_masquerades_as_missing "Agus Setiawan" "database is locked").2.1

end AgenKampus
